import Mathlib

/-!
Shallow embedding of the trip-distance pipeline (packages latlong, nvector,
utm and main) and proofs about it.

Modelling conventions:
* float64 is modelled as the real numbers.
* Go JSON values decoded into interface\x7b\x7d are modelled by the inductive
  JValue below; a Go map[string]interface\x7b\x7d is an association list with
  distinct keys (json.Unmarshal deduplicates keys before the decoders run).
  json.Unmarshal of a variant takes Option JValue: none models text that is
  not valid JSON at all, some v a successfully parsed value.
* Methods that mutate a receiver and return error are modelled as functions
  returning Except String.
* Channels are modelled by the lists of the values sent over them, in send
  order; loadTrips consumes the already-scanned list of (id, coordinate)
  records of the input file and returns the list of trips it sends.
* math.Atan2 y x is the argument of the complex number x + y*I (range
  (-pi, pi]), math.Hypot is the euclidean norm; both are modelled on the
  reals.
-/

/-- JSON value as produced by Go json.Unmarshal into interface\x7b\x7d:
numbers become float64 (here: real numbers), strings stay strings,
objects become string-keyed maps (here: association lists). -/
inductive JValue : Type where
  | num (q : ℝ) : JValue
  | str (s : String) : JValue
  | jbool (b : Bool) : JValue
  | jnull : JValue
  | arr (l : List JValue) : JValue
  | obj (fields : List (String × JValue)) : JValue

namespace latlong

/-- latlong.Coordinate: a position given by latitude and longitude in
degrees (src/src/latlong/coordinate.go). -/
structure Coordinate where
  Latitude : ℝ
  Longitude : ℝ

/-- latlong.Coordinate.Lat returns the Latitude field directly. -/
def Coordinate.Lat (c : Coordinate) : ℝ := c.Latitude

/-- latlong.Coordinate.Lon returns the Longitude field directly. -/
def Coordinate.Lon (c : Coordinate) : ℝ := c.Longitude

/-- latlong.Coordinate.UnmarshalJSON: requires a JSON object with exactly
2 fields, a numeric "Latitude" and a numeric "Longitude"; checks run in
the source order (field count, Latitude presence, Latitude type,
Longitude presence, Longitude type). -/
def Coordinate.UnmarshalJSON (parsed : Option JValue) : Except String Coordinate :=
  match parsed with
  | some (JValue.obj fields) =>
    if fields.length > 2 then Except.error "Too many fields for: latlong.Coordinate"
    else if fields.length < 2 then Except.error "Not enough fields for: latlong.Coordinate"
    else
      match fields.lookup "Latitude" with
      | none => Except.error "Missing field: \"Latitude\""
      | some (JValue.num lat) =>
        match fields.lookup "Longitude" with
        | none => Except.error "Missing field: \"Longitude\""
        | some (JValue.num lon) => Except.ok ⟨lat, lon⟩
        | some _ => Except.error "Wrong type for field: \"Longitude\""
      | some _ => Except.error "Wrong type for field: \"Latitude\""
  | _ => Except.error "json: cannot unmarshal value into Go map"

end latlong

namespace nvector

/-- nvector.Coordinate: a position in the n-vector representation
(src/src/nvector/coordinate.go). -/
structure Coordinate where
  X : ℝ
  Y : ℝ
  Z : ℝ

/-- nvector.Coordinate.UnmarshalJSON: requires a JSON object with exactly
3 fields, numeric "X", "Y" and "Z"; checks run in the source order. The
error texts for the Z checks name "Y", exactly as in the source. -/
def Coordinate.UnmarshalJSON (parsed : Option JValue) : Except String Coordinate :=
  match parsed with
  | some (JValue.obj fields) =>
    if fields.length > 3 then Except.error "Too many fields for: nvector.Coordinate"
    else if fields.length < 3 then Except.error "Not enough fields for: nvector.Coordinate"
    else
      match fields.lookup "X" with
      | none => Except.error "Missing field: \"X\""
      | some (JValue.num x) =>
        match fields.lookup "Y" with
        | none => Except.error "Missing field: \"Y\""
        | some (JValue.num y) =>
          match fields.lookup "Z" with
          | none => Except.error "Missing field: \"Y\""
          | some (JValue.num z) => Except.ok ⟨x, y, z⟩
          | some _ => Except.error "Wrong type for field: \"Y\""
        | some _ => Except.error "Wrong type for field: \"Y\""
      | some _ => Except.error "Wrong type for field: \"X\""
  | _ => Except.error "json: cannot unmarshal value into Go map"

end nvector

namespace utm

/-- Modelled from the spec: the utm package's source is not under src/.
Per the spec's grid collaborator contract it decodes from JSON with
exactly the fields easting, northing, zone-number (numeric) and
zone-letter (text) and exposes latitude/longitude. Field key strings
follow the example input commented in src/src/main/main.go. -/
structure Coordinate where
  Easting : ℝ
  Northing : ℝ
  ZoneNumber : ℝ
  ZoneLetter : String

/-- Modelled from the spec: utm.Coordinate's JSON decode accepts exactly
the four grid fields (three numeric, one textual) and rejects any other
shape, so that the strict decoder's fallthrough behaves correctly. -/
def Coordinate.UnmarshalJSON (parsed : Option JValue) : Except String Coordinate :=
  match parsed with
  | some (JValue.obj fields) =>
    if fields.length > 4 then Except.error "Too many fields for: utm.Coordinate"
    else if fields.length < 4 then Except.error "Not enough fields for: utm.Coordinate"
    else
      match fields.lookup "Easting" with
      | some (JValue.num e) =>
        match fields.lookup "Northing" with
        | some (JValue.num n) =>
          match fields.lookup "ZoneNumber" with
          | some (JValue.num zn) =>
            match fields.lookup "ZoneLetter" with
            | some (JValue.str zl) => Except.ok ⟨e, n, zn, zl⟩
            | _ => Except.error "Bad field: \"ZoneLetter\""
          | _ => Except.error "Bad field: \"ZoneNumber\""
        | _ => Except.error "Bad field: \"Northing\""
      | _ => Except.error "Bad field: \"Easting\""
  | _ => Except.error "json: cannot unmarshal value into Go map"

end utm

/-- latlong.LatLonger: the interface value returned by unmarshalLatLonger,
one of the three concrete coordinate variants. -/
inductive LatLonger : Type where
  | geographic (c : latlong.Coordinate) : LatLonger
  | nvec (c : nvector.Coordinate) : LatLonger
  | grid (c : utm.Coordinate) : LatLonger

/-- main.unmarshalLatLonger: tries latlong.Coordinate, then
nvector.Coordinate, then utm.Coordinate on the same input, returning the
first success; if all three fail it returns the aggregate error
"Cannot unmarshal coordinate: " followed by the original text s
(src/src/main/main.go lines 59-83). -/
def unmarshalLatLonger (s : String) (parsed : Option JValue) : Except String LatLonger :=
  match latlong.Coordinate.UnmarshalJSON parsed with
  | Except.ok lt => Except.ok (LatLonger.geographic lt)
  | Except.error _ =>
    match nvector.Coordinate.UnmarshalJSON parsed with
    | Except.ok n => Except.ok (LatLonger.nvec n)
    | Except.error _ =>
      match utm.Coordinate.UnmarshalJSON parsed with
      | Except.ok u => Except.ok (LatLonger.grid u)
      | Except.error _ => Except.error ("Cannot unmarshal coordinate: " ++ s)

/-- main.trip: a traveler id together with the ordered trajectory. The
trajectory element type is kept as a parameter; the Go field holds
latlong.LatLonger values, which loadTrips never inspects. -/
structure trip (α : Type) where
  id : Int
  trajectory : List α
deriving DecidableEq

/-- main.total: a traveler id together with the total distance. -/
structure total where
  id : Int
  distance : ℝ

/-- Loop body of main.loadTrips: tmp is the running accumulator (Go:
var tmp = trip\x7b0, nil\x7d). While the incoming record carries the same id
as tmp, the coordinate is appended; on an id change the accumulated tmp
is sent and a fresh accumulator is started; after the last line the
current tmp is sent unconditionally. The returned list is the sequence
of trips sent over the channel. -/
def loadTripsAux {α : Type} (tmp : trip α) : List (Int × α) → List (trip α)
  | [] => [tmp]
  | (id, l) :: rest =>
    if tmp.id = id then
      loadTripsAux ⟨tmp.id, tmp.trajectory ++ [l]⟩ rest
    else
      tmp :: loadTripsAux ⟨id, [l]⟩ rest

/-- main.loadTrips on the list of already-decoded (id, coordinate)
records of the input file, starting from the accumulator trip\x7b0, nil\x7d
(src/src/main/main.go lines 99-144). -/
def loadTrips {α : Type} (records : List (Int × α)) : List (trip α) :=
  loadTripsAux ⟨0, []⟩ records

/-- Inner loop of main.computeDistances: dist starts at 0 and the
distance of every consecutive pair of trajectory points is added, in
order (Go: for i := 0; i < len(t.trajectory)-1; i++). The pairwise
distance function is a parameter because latlong.Distance's source is
not under src/ and computeDistances only applies it pointwise. -/
def tripDistance {α : Type} (d : α → α → ℝ) : List α → ℝ
  | x :: y :: rest => d x y + tripDistance d (y :: rest)
  | _ => 0

/-- main.computeDistances: for each trip received, in order, emit a
total carrying the trip's id and the summed consecutive-pair distance
(src/src/main/main.go lines 153-165). -/
def computeDistances {α : Type} (d : α → α → ℝ) (trips : List (trip α)) : List total :=
  trips.map (fun t => ⟨t.id, tripDistance d t.trajectory⟩)

/-- deg converts an angle in radians to degrees (identical helper in the
latlong and nvector packages). -/
noncomputable def deg (r : ℝ) : ℝ := r * 180 / Real.pi

/-- rad converts an angle in degrees to radians (identical helper in the
latlong and nvector packages). -/
noncomputable def rad (d : ℝ) : ℝ := d * Real.pi / 180

/-- math.Atan2 y x: the argument of the point (x, y), in (-pi, pi]. -/
noncomputable def atan2 (y x : ℝ) : ℝ := Complex.arg (x + y * Complex.I)

/-- math.Hypot x y: the euclidean norm sqrt(x^2 + y^2). -/
noncomputable def hypot (x y : ℝ) : ℝ := Real.sqrt (x ^ 2 + y ^ 2)

namespace nvector

/-- nvector.Coordinate.ToLatLong: lat = deg(atan2(z, hypot(x, y))),
lon = deg(atan2(y, x)) (src/src/nvector/coordinate.go lines 27-31). -/
noncomputable def Coordinate.ToLatLong (c : Coordinate) : latlong.Coordinate :=
  ⟨deg (atan2 c.Z (hypot c.X c.Y)), deg (atan2 c.Y c.X)⟩

/-- nvector.ToCoordinate as written in the source: converts lat/lon to
radians and then wraps EVERY component in deg, i.e. scales the unit
vector by 180/pi (src/src/nvector/coordinate.go lines 34-42). -/
noncomputable def ToCoordinate (l : latlong.Coordinate) : Coordinate :=
  ⟨deg (Real.cos (rad l.Lat) * Real.cos (rad l.Lon)),
   deg (Real.cos (rad l.Lat) * Real.sin (rad l.Lon)),
   deg (Real.sin (rad l.Lat))⟩

/-- nvector.Coordinate.Lat: latitude of the converted coordinate. -/
noncomputable def Coordinate.Lat (c : Coordinate) : ℝ := c.ToLatLong.Latitude

/-- nvector.Coordinate.Lon: longitude of the converted coordinate. -/
noncomputable def Coordinate.Lon (c : Coordinate) : ℝ := c.ToLatLong.Longitude

end nvector

/-- Modelled from the spec (section 4.2): the unscaled conversion
x = cos(lat)cos(lon), y = cos(lat)sin(lon), z = sin(lat), with lat and
lon first converted to radians; the components carry no degrees-per-
radian factor. Stated for comparison with nvector.ToCoordinate. -/
noncomputable def geographic_to_nvector_spec (lat lon : ℝ) : nvector.Coordinate :=
  ⟨Real.cos (rad lat) * Real.cos (rad lon),
   Real.cos (rad lat) * Real.sin (rad lon),
   Real.sin (rad lat)⟩

/-- Characterization of latlong.Coordinate.UnmarshalJSON on an object:
it succeeds exactly when the object has 2 fields and numeric Latitude
and Longitude entries, and then returns those values. -/
theorem latlong_UnmarshalJSON_ok_iff (fields : List (String × JValue)) (c : latlong.Coordinate) :
    latlong.Coordinate.UnmarshalJSON (some (JValue.obj fields)) = Except.ok c ↔
      fields.length = 2 ∧ fields.lookup "Latitude" = some (JValue.num c.Latitude) ∧
        fields.lookup "Longitude" = some (JValue.num c.Longitude) := by
  constructor
  · intro h
    by_cases hgt : fields.length > 2
    · simp [latlong.Coordinate.UnmarshalJSON, hgt] at h
    · by_cases hlt : fields.length < 2
      · simp [latlong.Coordinate.UnmarshalJSON, hgt, hlt] at h
      · have hlen : fields.length = 2 := by omega
        rcases hLa : fields.lookup "Latitude" with _ | vLa
        · simp [latlong.Coordinate.UnmarshalJSON, hgt, hlt, hLa] at h
        · rcases hLo : fields.lookup "Longitude" with _ | vLo
          · cases vLa <;>
              simp [latlong.Coordinate.UnmarshalJSON, hgt, hlt, hLa, hLo] at h
          · cases vLa <;> cases vLo <;>
              simp [latlong.Coordinate.UnmarshalJSON, hgt, hlt, hLa, hLo] at h
            subst h
            refine ⟨hlen, ?_, ?_⟩ <;> simp_all
  · rintro ⟨hlen, hLa, hLo⟩
    simp [latlong.Coordinate.UnmarshalJSON, hlen, hLa, hLo]

/-- Characterization of nvector.Coordinate.UnmarshalJSON on an object:
it succeeds exactly when the object has 3 fields and numeric X, Y and Z
entries, and then returns those values. -/
theorem nvector_UnmarshalJSON_ok_iff (fields : List (String × JValue)) (c : nvector.Coordinate) :
    nvector.Coordinate.UnmarshalJSON (some (JValue.obj fields)) = Except.ok c ↔
      fields.length = 3 ∧ fields.lookup "X" = some (JValue.num c.X) ∧
        fields.lookup "Y" = some (JValue.num c.Y) ∧
        fields.lookup "Z" = some (JValue.num c.Z) := by
  constructor
  · intro h
    by_cases hgt : fields.length > 3
    · simp [nvector.Coordinate.UnmarshalJSON, hgt] at h
    · by_cases hlt : fields.length < 3
      · simp [nvector.Coordinate.UnmarshalJSON, hgt, hlt] at h
      · have hlen : fields.length = 3 := by omega
        rcases hX : fields.lookup "X" with _ | vX
        · simp [nvector.Coordinate.UnmarshalJSON, hgt, hlt, hX] at h
        · rcases hY : fields.lookup "Y" with _ | vY
          · cases vX <;>
              simp [nvector.Coordinate.UnmarshalJSON, hgt, hlt, hX, hY] at h
          · rcases hZ : fields.lookup "Z" with _ | vZ
            · cases vX <;> cases vY <;>
                simp [nvector.Coordinate.UnmarshalJSON, hgt, hlt, hX, hY, hZ] at h
            · cases vX <;> cases vY <;> cases vZ <;>
                simp [nvector.Coordinate.UnmarshalJSON, hgt, hlt, hX, hY, hZ] at h
              subst h
              refine ⟨hlen, ?_, ?_, ?_⟩ <;> simp_all
  · rintro ⟨hlen, hX, hY, hZ⟩
    simp [nvector.Coordinate.UnmarshalJSON, hlen, hX, hY, hZ]

/-- tripDistance equals the sum of the pairwise distances of consecutive
trajectory points, phrased independently via zipWith with the tail. -/
theorem tripDistance_eq_zipWith_sum {α : Type} (d : α → α → ℝ) :
    ∀ l : List α, tripDistance d l = (List.zipWith d l l.tail).sum
  | [] => rfl
  | [_] => rfl
  | x :: y :: rest => by
    have ih := tripDistance_eq_zipWith_sum d (y :: rest)
    simp [tripDistance, ih]

/-- C1: code bug. On the traveler-id sequence [1, 1, 2, 2, 2, 3] the
aggregator emits FOUR trips, with trajectory lengths [0, 2, 3, 1]: the
accumulator starts as trip 0/nil and is sent unchanged on the first id
change, so a spurious empty trip with id 0 precedes the three real
trips, contrary to the claimed three trips of lengths [2, 3, 1]. -/
theorem C1_loadTrips_emits_spurious_initial_trip :
    loadTrips [(1, ()), (1, ()), (2, ()), (2, ()), (2, ()), (3, ())] =
      [⟨0, []⟩, ⟨1, [(), ()]⟩, ⟨2, [(), (), ()]⟩, ⟨3, [()]⟩] ∧
    (loadTrips [(1, ()), (1, ()), (2, ()), (2, ()), (2, ()), (3, ())]).map
      (fun t => t.trajectory.length) = [0, 2, 3, 1] :=
  ⟨rfl, rfl⟩

/-- C2: code bug. On empty input the aggregator still sends the initial
accumulator trip 0/nil (the final send is unconditional), and the
distance stage then emits one total with id 0 and distance 0, contrary
to the claimed zero emissions. -/
theorem C2_empty_input_emits_one_spurious_total :
    loadTrips ([] : List (Int × Unit)) = [⟨0, []⟩] ∧
    computeDistances (fun _ _ => (0 : ℝ)) (loadTrips ([] : List (Int × Unit))) = [⟨0, 0⟩] :=
  ⟨rfl, rfl⟩

/-- C5: a JSON object with exactly the two numeric Latitude/Longitude
fields decodes as the Geographic variant carrying exactly those values;
the decoder therefore never reaches the NVector or Grid variant for
such input. -/
theorem C5_geographic_decode (s : String) (fields : List (String × JValue)) (lat lon : ℝ)
    (hlen : fields.length = 2)
    (hLa : fields.lookup "Latitude" = some (JValue.num lat))
    (hLo : fields.lookup "Longitude" = some (JValue.num lon)) :
    unmarshalLatLonger s (some (JValue.obj fields)) =
      Except.ok (LatLonger.geographic ⟨lat, lon⟩) := by
  have h : latlong.Coordinate.UnmarshalJSON (some (JValue.obj fields)) = Except.ok ⟨lat, lon⟩ :=
    (latlong_UnmarshalJSON_ok_iff fields ⟨lat, lon⟩).2 ⟨hlen, hLa, hLo⟩
  unfold unmarshalLatLonger
  rw [h]

/-- Witness for C5 at the object with Latitude 1 and Longitude 2. -/
theorem C5_geographic_decode_witness :
    unmarshalLatLonger ""
        (some (JValue.obj [("Latitude", JValue.num 1), ("Longitude", JValue.num 2)])) =
      Except.ok (LatLonger.geographic ⟨1, 2⟩) :=
  C5_geographic_decode "" _ 1 2 rfl rfl rfl

/-- C6: the decoder tries Geographic, then NVector, then Grid, returns
the first success, and when all three fail it fails with the aggregate
error text that ends with the original input text. -/
theorem C6_decoder_priority_order (s : String) (p : Option JValue) :
    (∀ lt, latlong.Coordinate.UnmarshalJSON p = Except.ok lt →
      unmarshalLatLonger s p = Except.ok (LatLonger.geographic lt)) ∧
    (∀ e n, latlong.Coordinate.UnmarshalJSON p = Except.error e →
      nvector.Coordinate.UnmarshalJSON p = Except.ok n →
      unmarshalLatLonger s p = Except.ok (LatLonger.nvec n)) ∧
    (∀ e e' u, latlong.Coordinate.UnmarshalJSON p = Except.error e →
      nvector.Coordinate.UnmarshalJSON p = Except.error e' →
      utm.Coordinate.UnmarshalJSON p = Except.ok u →
      unmarshalLatLonger s p = Except.ok (LatLonger.grid u)) ∧
    (∀ e e' e'', latlong.Coordinate.UnmarshalJSON p = Except.error e →
      nvector.Coordinate.UnmarshalJSON p = Except.error e' →
      utm.Coordinate.UnmarshalJSON p = Except.error e'' →
      unmarshalLatLonger s p = Except.error ("Cannot unmarshal coordinate: " ++ s) ∧
        ∃ pre, "Cannot unmarshal coordinate: " ++ s = pre ++ s) := by
  refine ⟨fun lt h1 => ?_, fun e n h1 h2 => ?_, fun e e' u h1 h2 h3 => ?_,
    fun e e' e'' h1 h2 h3 => ⟨?_, "Cannot unmarshal coordinate: ", rfl⟩⟩
  · unfold unmarshalLatLonger; rw [h1]
  · unfold unmarshalLatLonger; rw [h1, h2]
  · unfold unmarshalLatLonger; rw [h1, h2, h3]
  · unfold unmarshalLatLonger; rw [h1, h2, h3]

/-- Witness for C6: on unparsable input all three variants fail and the
aggregate error carries the original text. -/
theorem C6_decoder_priority_order_witness :
    unmarshalLatLonger "x" none = Except.error ("Cannot unmarshal coordinate: " ++ "x") :=
  ((C6_decoder_priority_order "x" none).2.2.2 _ _ _ rfl rfl rfl).1

/-- C7: for the Geographic and NVector variants, a decode attempt on an
object succeeds exactly when the field count matches the variant's
expected count and every expected field is present with a numeric
value; any extra, missing or wrongly typed field makes the attempt
fail. -/
theorem C7_strict_field_matching (fields : List (String × JValue)) :
    ((∃ c, latlong.Coordinate.UnmarshalJSON (some (JValue.obj fields)) = Except.ok c) ↔
      fields.length = 2 ∧ (∃ la, fields.lookup "Latitude" = some (JValue.num la)) ∧
        (∃ lo, fields.lookup "Longitude" = some (JValue.num lo))) ∧
    ((∃ c, nvector.Coordinate.UnmarshalJSON (some (JValue.obj fields)) = Except.ok c) ↔
      fields.length = 3 ∧ (∃ x, fields.lookup "X" = some (JValue.num x)) ∧
        (∃ y, fields.lookup "Y" = some (JValue.num y)) ∧
        (∃ z, fields.lookup "Z" = some (JValue.num z))) := by
  constructor
  · constructor
    · rintro ⟨c, hc⟩
      obtain ⟨h1, h2, h3⟩ := (latlong_UnmarshalJSON_ok_iff fields c).1 hc
      exact ⟨h1, ⟨_, h2⟩, ⟨_, h3⟩⟩
    · rintro ⟨h1, ⟨la, h2⟩, ⟨lo, h3⟩⟩
      exact ⟨⟨la, lo⟩, (latlong_UnmarshalJSON_ok_iff fields ⟨la, lo⟩).2 ⟨h1, h2, h3⟩⟩
  · constructor
    · rintro ⟨c, hc⟩
      obtain ⟨h1, h2, h3, h4⟩ := (nvector_UnmarshalJSON_ok_iff fields c).1 hc
      exact ⟨h1, ⟨_, h2⟩, ⟨_, h3⟩, ⟨_, h4⟩⟩
    · rintro ⟨h1, ⟨x, h2⟩, ⟨y, h3⟩, ⟨z, h4⟩⟩
      exact ⟨⟨x, y, z⟩, (nvector_UnmarshalJSON_ok_iff fields ⟨x, y, z⟩).2 ⟨h1, h2, h3, h4⟩⟩

/-- Witness for C7: an object with a single Latitude field (missing
Longitude, count 1) is rejected by the Geographic attempt. -/
theorem C7_strict_field_matching_witness :
    ¬ ∃ c, latlong.Coordinate.UnmarshalJSON
        (some (JValue.obj [("Latitude", JValue.num 1)])) = Except.ok c := by
  intro hc
  have h := (C7_strict_field_matching [("Latitude", JValue.num 1)]).1.1 hc
  simp at h

/-- C8: the distance stage maps each trip to a total carrying the
trip's id and the sum of the distances of consecutive trajectory
pairs; a trip with fewer than two points yields distance exactly 0. -/
theorem C8_computeDistances_sums_consecutive_pairs {α : Type} (d : α → α → ℝ)
    (trips : List (trip α)) :
    computeDistances d trips =
      trips.map (fun t => ⟨t.id, (List.zipWith d t.trajectory t.trajectory.tail).sum⟩) ∧
    ∀ t : trip α, t.trajectory.length < 2 → computeDistances d [t] = [⟨t.id, 0⟩] := by
  constructor
  · simp only [computeDistances, tripDistance_eq_zipWith_sum]
  · intro t ht
    rcases t with ⟨i, traj⟩
    rcases traj with _ | ⟨a, traj⟩
    · rfl
    · rcases traj with _ | ⟨b, traj⟩
      · rfl
      · simp only [List.length_cons] at ht
        omega

/-- Witness for C8 on a three-point trip and an empty trip. -/
theorem C8_computeDistances_sums_consecutive_pairs_witness :
    computeDistances (fun _ _ => (1 : ℝ)) [trip.mk 5 [(), (), ()]] =
      [⟨5, (List.zipWith (fun _ _ => (1 : ℝ)) [(), (), ()] [(), ()]).sum⟩] ∧
    computeDistances (fun _ _ => (1 : ℝ)) [trip.mk 7 ([] : List Unit)] = [⟨7, 0⟩] :=
  ⟨(C8_computeDistances_sums_consecutive_pairs (fun _ _ => (1 : ℝ)) [trip.mk 5 [(), (), ()]]).1,
   (C8_computeDistances_sums_consecutive_pairs (fun _ _ => (1 : ℝ)) []).2
     (trip.mk 7 []) (by decide)⟩

/-- C10: the NVector decoder accepts any object with exactly the three
numeric X, Y, Z fields, whatever the magnitude of the vector; no unit-
norm validation is performed. -/
theorem C10_nvector_accepts_any_magnitude (fields : List (String × JValue)) (x y z : ℝ)
    (hlen : fields.length = 3)
    (hX : fields.lookup "X" = some (JValue.num x))
    (hY : fields.lookup "Y" = some (JValue.num y))
    (hZ : fields.lookup "Z" = some (JValue.num z)) :
    nvector.Coordinate.UnmarshalJSON (some (JValue.obj fields)) = Except.ok ⟨x, y, z⟩ :=
  (nvector_UnmarshalJSON_ok_iff fields ⟨x, y, z⟩).2 ⟨hlen, hX, hY, hZ⟩

/-- Witness for C10 at the far-from-unit vector (100, -200, 300). -/
theorem C10_nvector_accepts_any_magnitude_witness :
    nvector.Coordinate.UnmarshalJSON (some (JValue.obj
        [("X", JValue.num 100), ("Y", JValue.num (-200)), ("Z", JValue.num 300)])) =
      Except.ok ⟨100, -200, 300⟩ :=
  C10_nvector_accepts_any_magnitude _ 100 (-200) 300 rfl rfl rfl rfl

/-- atan2 is invariant under scaling both arguments by a positive
constant. -/
theorem atan2_pos_smul {y x : ℝ} (c : ℝ) (hc : 0 < c) : atan2 (c * y) (c * x) = atan2 y x := by
  unfold atan2
  have h : ((c * x : ℝ) : ℂ) + ((c * y : ℝ) : ℂ) * Complex.I
      = (c : ℂ) * (((x : ℝ) : ℂ) + ((y : ℝ) : ℂ) * Complex.I) := by
    push_cast
    ring
  rw [h]
  exact Complex.arg_real_mul _ hc

/-- atan2 recovers an angle in (-pi, pi] from its sine and cosine. -/
theorem atan2_sin_cos {θ : ℝ} (hθ : θ ∈ Set.Ioc (-Real.pi) Real.pi) :
    atan2 (Real.sin θ) (Real.cos θ) = θ := by
  unfold atan2
  have h : ((Real.cos θ : ℝ) : ℂ) + ((Real.sin θ : ℝ) : ℂ) * Complex.I
      = Complex.cos θ + Complex.sin θ * Complex.I := by
    rw [Complex.ofReal_cos, Complex.ofReal_sin]
  rw [h]
  exact Complex.arg_cos_add_sin_mul_I hθ

/-- atan2 of 0 over a nonnegative abscissa is 0. -/
theorem atan2_zero_of_nonneg {x : ℝ} (hx : 0 ≤ x) : atan2 0 x = 0 := by
  unfold atan2
  have h : ((x : ℝ) : ℂ) + ((0 : ℝ) : ℂ) * Complex.I = ((x : ℝ) : ℂ) := by
    push_cast
    ring
  rw [h]
  exact Complex.arg_ofReal_of_nonneg hx

/-- hypot scales by nonnegative constants. -/
theorem hypot_nonneg_smul {x y : ℝ} (c : ℝ) (hc : 0 ≤ c) :
    hypot (c * x) (c * y) = c * hypot x y := by
  unfold hypot
  rw [mul_pow, mul_pow, ← mul_add, Real.sqrt_mul (by positivity), Real.sqrt_sq hc]

/-- hypot of the cosine and sine of an angle is 1. -/
theorem hypot_cos_sin (θ : ℝ) : hypot (Real.cos θ) (Real.sin θ) = 1 := by
  unfold hypot
  rw [Real.cos_sq_add_sin_sq, Real.sqrt_one]

/-- deg and rad are mutually inverse. -/
theorem deg_rad (x : ℝ) : deg (rad x) = x := by
  unfold deg rad
  field_simp

/-- ToLatLong is invariant under scaling the n-vector by a positive
constant, since atan2 and hypot both scale. -/
theorem ToLatLong_pos_smul (x y z c : ℝ) (hc : 0 < c) :
    (nvector.Coordinate.mk (c * x) (c * y) (c * z)).ToLatLong
      = (nvector.Coordinate.mk x y z).ToLatLong := by
  simp only [nvector.Coordinate.ToLatLong]
  rw [hypot_nonneg_smul c hc.le, atan2_pos_smul c hc, atan2_pos_smul c hc]

/-- C3: code bug. nvector.ToCoordinate wraps every component in deg,
scaling the unit vector by 180/pi; at latitude 0, longitude 0 it
returns (180/pi, 0, 0) where the spec's unscaled conversion returns
(1, 0, 0). -/
theorem C3_ToCoordinate_scales_by_deg :
    nvector.ToCoordinate ⟨0, 0⟩ ≠ geographic_to_nvector_spec 0 0 ∧
    nvector.ToCoordinate ⟨0, 0⟩ = ⟨180 / Real.pi, 0, 0⟩ ∧
    geographic_to_nvector_spec 0 0 = ⟨1, 0, 0⟩ := by
  have hpi := Real.pi_pos
  have hne : (180 / Real.pi : ℝ) ≠ 1 := by
    intro h
    rw [div_eq_iff (ne_of_gt hpi), one_mul] at h
    nlinarith [Real.pi_lt_d2]
  have hrad0 : rad 0 = 0 := by unfold rad; ring
  have hcode : nvector.ToCoordinate ⟨0, 0⟩ = ⟨180 / Real.pi, 0, 0⟩ := by
    unfold nvector.ToCoordinate latlong.Coordinate.Lat latlong.Coordinate.Lon
    rw [hrad0, Real.cos_zero, Real.sin_zero]
    unfold deg
    norm_num
  have hspec : geographic_to_nvector_spec 0 0 = ⟨1, 0, 0⟩ := by
    unfold geographic_to_nvector_spec
    rw [hrad0, Real.cos_zero, Real.sin_zero]
    norm_num
  refine ⟨?_, hcode, hspec⟩
  rw [hcode, hspec]
  intro h
  exact hne (congrArg nvector.Coordinate.X h)

/-- C4 counterexample: at latitude 0 (inside the claimed open range) and
longitude 360 the round trip returns longitude 0, not 360, so the claim
fails for longitudes outside (-180, 180]. -/
theorem C4_roundtrip_counterexample :
    ((-90 : ℝ) < 0 ∧ (0 : ℝ) < 90) ∧
    (nvector.ToCoordinate ⟨0, 360⟩).ToLatLong ≠ (⟨0, 360⟩ : latlong.Coordinate) := by
  have hpi := Real.pi_pos
  have hc0 : (0 : ℝ) < 180 / Real.pi := by positivity
  have hcode : nvector.ToCoordinate ⟨0, 360⟩ = ⟨180 / Real.pi, 0, 0⟩ := by
    unfold nvector.ToCoordinate latlong.Coordinate.Lat latlong.Coordinate.Lon
    rw [show rad 360 = 2 * Real.pi by unfold rad; ring, show rad 0 = 0 by unfold rad; ring]
    rw [Real.cos_two_pi, Real.sin_two_pi, Real.cos_zero, Real.sin_zero]
    unfold deg
    norm_num
  have hround : (nvector.ToCoordinate ⟨0, 360⟩).ToLatLong = ⟨0, 0⟩ := by
    rw [hcode]
    simp only [nvector.Coordinate.ToLatLong]
    have hh : hypot (180 / Real.pi) 0 = 180 / Real.pi := by
      unfold hypot
      rw [show ((180 / Real.pi) ^ 2 + 0 ^ 2 : ℝ) = (180 / Real.pi) ^ 2 by ring,
        Real.sqrt_sq hc0.le]
    rw [hh, atan2_zero_of_nonneg hc0.le]
    unfold deg
    norm_num
  refine ⟨⟨by norm_num, by norm_num⟩, ?_⟩
  rw [hround]
  intro h
  have h360 := congrArg latlong.Coordinate.Longitude h
  norm_num [latlong.Coordinate.Longitude] at h360

/-- C4 (amended): for latitudes strictly between -90 and 90 degrees and
longitudes in (-180, 180] degrees, converting Geographic to NVector and
back recovers the original latitude and longitude exactly (in real
arithmetic); the uniform 180/pi scaling cancels because atan2 is
scale-invariant. -/
theorem C4_roundtrip (lat lon : ℝ) (h1 : -90 < lat) (h2 : lat < 90)
    (h3 : -180 < lon) (h4 : lon ≤ 180) :
    (nvector.ToCoordinate ⟨lat, lon⟩).ToLatLong = (⟨lat, lon⟩ : latlong.Coordinate) := by
  have hpi := Real.pi_pos
  have hrlat1 : -(Real.pi / 2) < rad lat := by
    unfold rad
    nlinarith [mul_pos (show (0 : ℝ) < lat + 90 by linarith) hpi]
  have hrlat2 : rad lat < Real.pi / 2 := by
    unfold rad
    nlinarith [mul_pos (show (0 : ℝ) < 90 - lat by linarith) hpi]
  have hrlon1 : -Real.pi < rad lon := by
    unfold rad
    nlinarith [mul_pos (show (0 : ℝ) < lon + 180 by linarith) hpi]
  have hrlon2 : rad lon ≤ Real.pi := by
    unfold rad
    nlinarith [mul_nonneg (show (0 : ℝ) ≤ 180 - lon by linarith) hpi.le]
  have hcos : 0 < Real.cos (rad lat) := Real.cos_pos_of_mem_Ioo ⟨hrlat1, hrlat2⟩
  have hcpos : 0 < 180 / Real.pi * Real.cos (rad lat) :=
    mul_pos (by positivity) hcos
  have hlatIoc : rad lat ∈ Set.Ioc (-Real.pi) Real.pi :=
    ⟨by linarith, by linarith⟩
  have hlonIoc : rad lon ∈ Set.Ioc (-Real.pi) Real.pi := ⟨hrlon1, hrlon2⟩
  simp only [nvector.ToCoordinate, nvector.Coordinate.ToLatLong, latlong.Coordinate.Lat,
    latlong.Coordinate.Lon]
  have hX : deg (Real.cos (rad lat) * Real.cos (rad lon))
      = 180 / Real.pi * Real.cos (rad lat) * Real.cos (rad lon) := by unfold deg; ring
  have hY : deg (Real.cos (rad lat) * Real.sin (rad lon))
      = 180 / Real.pi * Real.cos (rad lat) * Real.sin (rad lon) := by unfold deg; ring
  have hZ : deg (Real.sin (rad lat)) = 180 / Real.pi * Real.sin (rad lat) := by
    unfold deg; ring
  rw [hX, hY, hZ, hypot_nonneg_smul _ hcpos.le, hypot_cos_sin, mul_one,
    atan2_pos_smul _ (show (0 : ℝ) < 180 / Real.pi by positivity),
    atan2_pos_smul _ hcpos, atan2_sin_cos hlatIoc, atan2_sin_cos hlonIoc,
    deg_rad, deg_rad]

/-- Witness for C4 at latitude 45 and longitude 90. -/
theorem C4_roundtrip_witness :
    (nvector.ToCoordinate ⟨45, 90⟩).ToLatLong = (⟨45, 90⟩ : latlong.Coordinate) :=
  C4_roundtrip 45 90 (by norm_num) (by norm_num) (by norm_num) (by norm_num)

/-- C9: the latitude/longitude accessors are invariant under uniform
positive scaling of a nonzero n-vector; in particular the 180/pi factor
that ToCoordinate applies to all three components does not change what
ToLatLong recovers. -/
theorem C9_accessors_scale_invariant (x y z c : ℝ) (_hv : ¬(x = 0 ∧ y = 0 ∧ z = 0))
    (hc : 0 < c) :
    (nvector.Coordinate.mk (c * x) (c * y) (c * z)).ToLatLong
        = (nvector.Coordinate.mk x y z).ToLatLong ∧
    (nvector.Coordinate.mk (c * x) (c * y) (c * z)).Lat = (nvector.Coordinate.mk x y z).Lat ∧
    (nvector.Coordinate.mk (c * x) (c * y) (c * z)).Lon = (nvector.Coordinate.mk x y z).Lon ∧
    (nvector.Coordinate.mk (deg x) (deg y) (deg z)).ToLatLong
        = (nvector.Coordinate.mk x y z).ToLatLong := by
  have h := ToLatLong_pos_smul x y z c hc
  refine ⟨h, ?_, ?_, ?_⟩
  · unfold nvector.Coordinate.Lat
    rw [h]
  · unfold nvector.Coordinate.Lon
    rw [h]
  · rw [show deg x = 180 / Real.pi * x by unfold deg; ring,
      show deg y = 180 / Real.pi * y by unfold deg; ring,
      show deg z = 180 / Real.pi * z by unfold deg; ring]
    exact ToLatLong_pos_smul x y z (180 / Real.pi) (by positivity)

/-- Witness for C9 at the vector (1, 0, 0) scaled by 2. -/
theorem C9_accessors_scale_invariant_witness :
    (nvector.Coordinate.mk (2 * 1) (2 * 0) (2 * 0)).ToLatLong
      = (nvector.Coordinate.mk 1 0 0).ToLatLong :=
  (C9_accessors_scale_invariant 1 0 0 2 (by norm_num) (by norm_num)).1
